import Mathlib

/-!
Shallow embedding of the user-management service in `src/app.py`:
an SQLite-backed store of user rows together with the repository
functions (`insert_user`, `get_users`, `get_user_by_id`, `update_user`,
`delete_user`) and the HTTP handlers (`api_get_users`, `api_get_user`,
`api_add_user`, `api_update_user`, `api_delete_user`).

Modelling decisions, each traceable to the source:

* A JSON value bound into an SQL statement is a string, an integer, or
  null (`Val`).  The columns `name, email, phone, address, country` have
  TEXT affinity, so an integer binding is stored as its decimal text and
  a null binding violates the NOT NULL constraint of the schema created
  in `create_db_table`.
* The store is `DB`: the list of rows in insertion (rowid) order plus
  the AUTOINCREMENT counter `nextId`, which SQLite never decreases, even
  after deletes (the table is declared `INTEGER PRIMARY KEY
  AUTOINCREMENT`).  A plain `SELECT * FROM users` scans this table in
  rowid order, which the row list records.
* Each repository call opens its own connection as
  `with connect_to_db() as conn:` and can hit a store-level
  `sqlite3.Error` raised by its statement; the `Fault` argument selects
  that or the untroubled run.  `insert_user` and `update_user` perform a
  second read (`get_user_by_id`) after the write, so they take a second
  fault for it; the write is already committed at that point.
* A failed connection is not a `Fault` of the repository functions:
  `connect_to_db` returns `None` on failure, and `with None` raises
  `TypeError` before the function body runs, so every
  `else: return (...connection failed...)` branch in the source is
  unreachable and has no arm in the model.  The exception escapes the
  repository function and the handler, and the framework answers HTTP
  500; the request-level functions taking a `connOk` flag model this.
* A `sqlite3.IntegrityError` is raised by INSERT when a bound value is
  null (NOT NULL) or the email equals an existing row's email (UNIQUE),
  and by UPDATE when a row is matched and the new values violate one of
  those constraints against the rows not being replaced.  The code maps
  every `IntegrityError` to the body "Email must be unique." and every
  other `sqlite3.Error` to the generic failure body.
* Result dictionaries are rendered as inductive types whose
  constructors name the exact JSON bodies the code builds.
-/

/-- A JSON value as it can appear for one of the user fields in a
request body: a string, an integer, or null. -/
inductive Val where
  | str (s : String)
  | num (n : Int)
  | null
deriving DecidableEq, Repr

/-- A parsed JSON object body: association list of keys to values
(`request.get_json()` when it returns a dict). -/
abbrev Obj := List (String × Val)

/-- `field in user` in Python: key membership in the parsed object. -/
def hasKey (o : Obj) (k : String) : Bool :=
  o.any (fun kv => kv.1 == k)

/-- `user[field]`: first binding of the key, defaulting is never reached
in the handler flows because presence is validated first. -/
def getVal (o : Obj) (k : String) : Val :=
  match o.lookup k with
  | some v => v
  | none => Val.null

/-- One stored row of the `users` table: all columns populated, the
five text columns are NOT NULL so they hold strings. -/
structure UserRow where
  user_id : Nat
  name : String
  email : String
  phone : String
  address : String
  country : String
deriving DecidableEq, Repr

/-- The store: rows of the `users` table in rowid (insertion) order and
the AUTOINCREMENT counter, which SQLite only ever increases. -/
structure DB where
  rows : List UserRow
  nextId : Nat
deriving DecidableEq, Repr

/-- The store right after `create_db_table` on a fresh database file:
no rows, first assigned rowid is 1. -/
def initialDB : DB := ⟨[], 1⟩

/-- What can go wrong inside one repository call once the connection is
open: `storeErr` is a `sqlite3.Error` raised by the statement (other
than the integrity violations the model derives from the data); `ok`
is the untroubled run.  A failed connection is modeled separately,
because it raises before the call's body runs. -/
inductive Fault where
  | ok
  | storeErr
deriving DecidableEq, Repr

/-- Binding a JSON value into a TEXT-affinity NOT NULL column: strings
are stored as given, integers as their decimal text, null violates the
NOT NULL constraint. -/
def storeVal : Val → Option String
  | Val.str s => some s
  | Val.num n => some (toString n)
  | Val.null => none

/-- The five values `insert_user`/`update_user` read out of the request
dict and bind into the SQL statement. -/
structure Payload where
  name : Val
  email : Val
  phone : Val
  address : Val
  country : Val
deriving DecidableEq, Repr

/-- All five bound values as stored text, or `none` if any binding is
null (which makes the statement raise an IntegrityError). -/
def storeVals (p : Payload) : Option (String × String × String × String × String) := do
  let n ← storeVal p.name
  let e ← storeVal p.email
  let ph ← storeVal p.phone
  let a ← storeVal p.address
  let c ← storeVal p.country
  pure (n, e, ph, a, c)

/-- `WHERE user_id = ?` with a JSON value bound: the column has INTEGER
affinity, so an integer matches the rowid numerically, a string is
converted to an integer when it parses as one, and null matches no
row. -/
def rowMatchesId (v : Val) (r : UserRow) : Bool :=
  match v with
  | Val.num n => n == (r.user_id : Int)
  | Val.str s => s.toInt? == some (r.user_id : Int)
  | Val.null => false

/-- Whether some row already holds this email (the UNIQUE constraint
check for INSERT). -/
def emailTaken (db : DB) (e : String) : Bool :=
  db.rows.any (fun r => r.email == e)

/-- `get_user_by_id`: SELECT one row by id; returns the row dict, or
the empty dict (here `none`) when no row matches or when the statement
errors. -/
def get_user_by_id (f : Fault) (db : DB) (v : Val) : Option UserRow :=
  match f with
  | Fault.ok => db.rows.find? (fun r => rowMatchesId v r)
  | Fault.storeErr => none

/-- `get_users`: SELECT all rows; the list of row dicts in stored
order, or the empty list when the statement errors. -/
def get_users (f : Fault) (db : DB) : List UserRow :=
  match f with
  | Fault.ok => db.rows
  | Fault.storeErr => []

/-- The dict `insert_user` returns, one constructor per distinct JSON
body the code can build. -/
inductive InsertResult where
  /-- the row dict produced by the re-read -/
  | user (u : UserRow)
  /-- the empty dict, when the re-read finds nothing -/
  | emptyDict
  /-- the body with error "Email must be unique." -/
  | errEmailUnique
  /-- the body with error "Failed to insert user." -/
  | errInsertFailed
deriving DecidableEq, Repr

/-- `insert_user`: INSERT the five bound values, commit, then re-read
the new row by `lastrowid`.  An IntegrityError (null binding or email
already present) yields the "Email must be unique." body; any other
statement error yields "Failed to insert user.".  The function also
returns the store as it is left, with the AUTOINCREMENT counter
advanced on a successful insert. -/
def insert_user (fIns fRead : Fault) (db : DB) (p : Payload) : InsertResult × DB :=
  match fIns with
  | Fault.storeErr => (InsertResult.errInsertFailed, db)
  | Fault.ok =>
    match storeVals p with
    | none => (InsertResult.errEmailUnique, db)
    | some (n, e, ph, a, c) =>
      if emailTaken db e then
        (InsertResult.errEmailUnique, db)
      else
        let db' : DB := ⟨db.rows ++ [⟨db.nextId, n, e, ph, a, c⟩], db.nextId + 1⟩
        match get_user_by_id fRead db' (Val.num db.nextId) with
        | some u => (InsertResult.user u, db')
        | none => (InsertResult.emptyDict, db')

/-- The dict `update_user` returns. -/
inductive UpdateResult where
  /-- the row dict produced by the re-read -/
  | user (u : UserRow)
  /-- the empty dict, when the re-read finds nothing -/
  | emptyDict
  /-- the body with error "User not found." -/
  | errUserNotFound
  /-- the body with error "Email must be unique." -/
  | errEmailUnique
  /-- the body with error "Failed to update user." -/
  | errUpdateFailed
deriving DecidableEq, Repr

/-- `update_user`: UPDATE the five non-id columns of the rows matching
the bound id.  When no row matches, no constraint fires and the
statement reports zero affected rows, so the body is "User not found."
and the table is unchanged.  When a row matches, a null binding or an
email collision with a row not being replaced raises an IntegrityError
("Email must be unique."); otherwise the matching rows are rewritten in
place and the row is re-read by id. -/
def update_user (fUpd fRead : Fault) (db : DB) (idv : Val) (p : Payload) :
    UpdateResult × DB :=
  match fUpd with
  | Fault.storeErr => (UpdateResult.errUpdateFailed, db)
  | Fault.ok =>
    if db.rows.any (fun r => rowMatchesId idv r) then
      match storeVals p with
      | none => (UpdateResult.errEmailUnique, db)
      | some (n, e, ph, a, c) =>
        if db.rows.any (fun r => !rowMatchesId idv r && r.email == e) then
          (UpdateResult.errEmailUnique, db)
        else
          let db' : DB :=
            ⟨db.rows.map (fun r =>
                if rowMatchesId idv r then ⟨r.user_id, n, e, ph, a, c⟩ else r),
             db.nextId⟩
          match get_user_by_id fRead db' idv with
          | some u => (UpdateResult.user u, db')
          | none => (UpdateResult.emptyDict, db')
    else
      (UpdateResult.errUserNotFound, db)

/-- The dict `delete_user` returns: a "status" body. -/
inductive DeleteResult where
  /-- status "User deleted successfully." -/
  | deleted
  /-- status "User not found." -/
  | notFound
  /-- status "Failed to delete user." -/
  | deleteFailed
deriving DecidableEq, Repr

/-- `delete_user`: DELETE the rows matching the id, then report by the
affected-row count: zero rows affected means "User not found.". -/
def delete_user (f : Fault) (db : DB) (uid : Nat) : DeleteResult × DB :=
  match f with
  | Fault.storeErr => (DeleteResult.deleteFailed, db)
  | Fault.ok =>
    let remaining := db.rows.filter (fun r => !(r.user_id == uid))
    let db' : DB := ⟨remaining, db.nextId⟩
    if db.rows.length - remaining.length == 0 then
      (DeleteResult.notFound, db')
    else
      (DeleteResult.deleted, db')

/-- A JSON response body the handlers can produce, one constructor per
distinct shape. -/
inductive RespBody where
  /-- a single user object -/
  | userObj (u : UserRow)
  /-- the empty JSON object -/
  | emptyObj
  /-- a JSON array of user objects -/
  | userList (us : List UserRow)
  /-- error "No input data provided." -/
  | errNoInput
  /-- error "Missing fields: ..." listing these field names in order -/
  | errMissing (fields : List String)
  /-- error "Email must be unique." -/
  | errEmailUnique
  /-- error "Failed to insert user." -/
  | errInsertFailed
  /-- error "Failed to update user." -/
  | errUpdateFailed
  /-- error "User not found." -/
  | errUserNotFound
  /-- status "User deleted successfully." -/
  | statusDeleted
  /-- status "User not found." -/
  | statusNotFound
  /-- status "Failed to delete user." -/
  | statusDeleteFailed
  /-- the framework's 500 Internal Server Error page, produced when an
  uncaught exception escapes a handler -/
  | internalError
deriving DecidableEq, Repr

/-- An HTTP response: status code and JSON body. -/
abbrev Response := Nat × RespBody

/-- Required fields of the create endpoint, in the order the code
lists them. -/
def required_fields_add : List String :=
  ["name", "email", "phone", "address", "country"]

/-- Required fields of the update endpoint, in the order the code
lists them. -/
def required_fields_update : List String :=
  ["user_id", "name", "email", "phone", "address", "country"]

/-- `not user` in Python on the parsed body: true when `get_json`
produced nothing or the body parsed to the empty object. -/
def bodyFalsy (body : Option Obj) : Bool :=
  match body with
  | none => true
  | some o => o.isEmpty

/-- The payload `insert_user`/`update_user` reads out of the dict. -/
def payloadOfObj (o : Obj) : Payload :=
  ⟨getVal o "name", getVal o "email", getVal o "phone", getVal o "address",
   getVal o "country"⟩

/-- `GET /api/users`: always 200 with the array `get_users` returns. -/
def api_get_users (f : Fault) (db : DB) : Response :=
  (200, RespBody.userList (get_users f db))

/-- `GET /api/users/(id)`: 200 with the row dict when `get_user_by_id`
returns a (truthy, because non-empty) dict, else 404 with
"User not found.". -/
def api_get_user (f : Fault) (db : DB) (uid : Nat) : Response :=
  match get_user_by_id f db (Val.num uid) with
  | some u => (200, RespBody.userObj u)
  | none => (404, RespBody.errUserNotFound)

/-- `insert_user`'s dict rendered as the add endpoint's response:
a dict carrying an "error" key gets 400, anything else 201. -/
def addResponseOf (r : InsertResult) : Response :=
  match r with
  | InsertResult.user u => (201, RespBody.userObj u)
  | InsertResult.emptyDict => (201, RespBody.emptyObj)
  | InsertResult.errEmailUnique => (400, RespBody.errEmailUnique)
  | InsertResult.errInsertFailed => (400, RespBody.errInsertFailed)

/-- `POST /api/users/add`: reject a falsy body with "No input data
provided.", then reject any missing required fields listing all of them
in order, then insert and render the outcome. -/
def api_add_user (body : Option Obj) (fIns fRead : Fault) (db : DB) :
    Response × DB :=
  if bodyFalsy body then
    ((400, RespBody.errNoInput), db)
  else
    let o := body.getD []
    if required_fields_add.all (fun fld => hasKey o fld) then
      let (res, db') := insert_user fIns fRead db (payloadOfObj o)
      (addResponseOf res, db')
    else
      ((400, RespBody.errMissing
          (required_fields_add.filter (fun fld => !hasKey o fld))), db)

/-- `update_user`'s dict rendered as the update endpoint's response:
a dict carrying an "error" key gets 400, anything else 200. -/
def updResponseOf (r : UpdateResult) : Response :=
  match r with
  | UpdateResult.user u => (200, RespBody.userObj u)
  | UpdateResult.emptyDict => (200, RespBody.emptyObj)
  | UpdateResult.errUserNotFound => (400, RespBody.errUserNotFound)
  | UpdateResult.errEmailUnique => (400, RespBody.errEmailUnique)
  | UpdateResult.errUpdateFailed => (400, RespBody.errUpdateFailed)

/-- `PUT /api/users/update`: same body and field-presence validation as
the add endpoint with `user_id` also required, then update and render
the outcome. -/
def api_update_user (body : Option Obj) (fUpd fRead : Fault) (db : DB) :
    Response × DB :=
  if bodyFalsy body then
    ((400, RespBody.errNoInput), db)
  else
    let o := body.getD []
    if required_fields_update.all (fun fld => hasKey o fld) then
      let (res, db') := update_user fUpd fRead db (getVal o "user_id") (payloadOfObj o)
      (updResponseOf res, db')
    else
      ((400, RespBody.errMissing
          (required_fields_update.filter (fun fld => !hasKey o fld))), db)

/-- `DELETE /api/users/delete/(id)`: 200 on success, 404 on
"User not found.", 400 otherwise. -/
def api_delete_user (f : Fault) (db : DB) (uid : Nat) : Response × DB :=
  let (res, db') := delete_user f db uid
  match res with
  | DeleteResult.deleted => ((200, RespBody.statusDeleted), db')
  | DeleteResult.notFound => ((404, RespBody.statusNotFound), db')
  | DeleteResult.deleteFailed => ((400, RespBody.statusDeleteFailed), db')

/-- One full `GET /api/users` request, connection outcome included.
When `connect_to_db` fails it returns `None`, and `with None` raises
`TypeError` before the query runs; the exception escapes `get_users`
and the handler, and the framework answers 500 with its error page.
With a usable connection the handler responds as `api_get_users`. -/
def api_get_users_req (connOk : Bool) (f : Fault) (db : DB) : Response :=
  if connOk then
    api_get_users f db
  else
    (500, RespBody.internalError)

/-- One full `GET /api/users/(id)` request, connection outcome
included: a failed connection raises `TypeError` out of
`get_user_by_id` and the handler, so the framework answers 500;
otherwise the handler responds as `api_get_user`. -/
def api_get_user_req (connOk : Bool) (f : Fault) (db : DB) (uid : Nat) :
    Response :=
  if connOk then
    api_get_user f db uid
  else
    (500, RespBody.internalError)

/-- One call against the service, with its faults fixed: what the
store-state evolution of a run is made of. -/
inductive Op where
  | create (fIns fRead : Fault) (p : Payload)
  | update (fUpd fRead : Fault) (idv : Val) (p : Payload)
  | delete (f : Fault) (uid : Nat)
  | getOne (f : Fault) (v : Val)
  | listAll (f : Fault)
deriving DecidableEq, Repr

/-- The store state after one call; SELECTs leave it untouched. -/
def applyOp (db : DB) : Op → DB
  | Op.create fIns fRead p => (insert_user fIns fRead db p).2
  | Op.update fUpd fRead idv p => (update_user fUpd fRead db idv p).2
  | Op.delete f uid => (delete_user f db uid).2
  | Op.getOne _ _ => db
  | Op.listAll _ => db

/-- The store state after a sequence of calls. -/
def run (db : DB) (ops : List Op) : DB :=
  ops.foldl applyOp db

/-- Store invariant: rows are in strictly increasing rowid order and
every rowid is below the AUTOINCREMENT counter. -/
def StoreInv (db : DB) : Prop :=
  db.rows.Pairwise (fun a b => a.user_id < b.user_id) ∧
    ∀ r ∈ db.rows, r.user_id < db.nextId

instance (db : DB) : Decidable (StoreInv db) := by
  unfold StoreInv; infer_instance

/-! ## Concrete fixtures

Inputs taken from the concrete scenarios of the specification, used to
instantiate the general theorems below. -/

/-- Scenario 1 payload: Alice. -/
def pAlice : Payload :=
  ⟨Val.str "Alice", Val.str "a@x.com", Val.str "123", Val.str "1 Main St",
   Val.str "US"⟩

/-- A second, distinct payload: Bob. -/
def pBob : Payload :=
  ⟨Val.str "Bob", Val.str "b@x.com", Val.str "456", Val.str "2 Oak Ave",
   Val.str "CA"⟩

/-- A payload whose name is JSON null: every field is present but the
INSERT violates the NOT NULL constraint. -/
def pNullName : Payload :=
  ⟨Val.null, Val.str "b@x.com", Val.str "456", Val.str "2 Oak Ave",
   Val.str "CA"⟩

/-- The row scenario 1 creates. -/
def rowAlice : UserRow := ⟨1, "Alice", "a@x.com", "123", "1 Main St", "US"⟩

/-- The row Bob gets when created after Alice has been deleted: rowid 2,
not a reuse of 1. -/
def rowBob : UserRow := ⟨2, "Bob", "b@x.com", "456", "2 Oak Ave", "CA"⟩

/-- The store after scenario 1. -/
def dbAlice : DB := ⟨[rowAlice], 2⟩

/-- The store after creating Alice, deleting her, then creating Bob. -/
def dbBob : DB := ⟨[rowBob], 3⟩

/-- Scenario 1 request body. -/
def objAlice : Obj :=
  [("name", Val.str "Alice"), ("email", Val.str "a@x.com"),
   ("phone", Val.str "123"), ("address", Val.str "1 Main St"),
   ("country", Val.str "US")]

/-- Scenario 2 request body: Alice's email under a different name. -/
def objBobDupEmail : Obj :=
  [("name", Val.str "Bob"), ("email", Val.str "a@x.com"),
   ("phone", Val.str "456"), ("address", Val.str "2 Oak Ave"),
   ("country", Val.str "CA")]

/-- Scenario 6 request body: only a name. -/
def objOnlyName : Obj := [("name", Val.str "Bob")]

/-- A request body carrying all five required keys, with the name bound
to JSON null: it passes presence validation but the INSERT violates
NOT NULL. -/
def objNullName : Obj :=
  [("name", Val.null), ("email", Val.str "b@x.com"),
   ("phone", Val.str "456"), ("address", Val.str "2 Oak Ave"),
   ("country", Val.str "CA")]

/-- Scenario 4-style update body aimed at a missing row (id 999). -/
def objUpdateMissing : Obj :=
  [("user_id", Val.num 999), ("name", Val.str "Alice B"),
   ("email", Val.str "a@x.com"), ("phone", Val.str "123"),
   ("address", Val.str "1 Main St"), ("country", Val.str "US")]

/-- Create Alice. -/
def opsCreateAlice : List Op := [Op.create Fault.ok Fault.ok pAlice]

/-- Then delete her row. -/
def opsDeleteAlice : List Op := [Op.delete Fault.ok 1]

/-! ## Store-shape lemmas -/

theorem storeInv_initial : StoreInv initialDB := by
  constructor
  · exact List.Pairwise.nil
  · intro r hr
    simp [initialDB] at hr

/-- An insert leaves the store unchanged or appends exactly one row
carrying the current AUTOINCREMENT value, advancing the counter. -/
theorem insert_user_snd (fIns fRead : Fault) (db : DB) (p : Payload) :
    (insert_user fIns fRead db p).2 = db ∨
      ∃ n e ph a c, storeVals p = some (n, e, ph, a, c) ∧
        emailTaken db e = false ∧
        (insert_user fIns fRead db p).2 =
          ⟨db.rows ++ [⟨db.nextId, n, e, ph, a, c⟩], db.nextId + 1⟩ := by
  cases fIns with
  | storeErr => exact Or.inl rfl
  | ok =>
    unfold insert_user
    cases h : storeVals p with
    | none => exact Or.inl rfl
    | some v =>
      obtain ⟨n, e, ph, a, c⟩ := v
      by_cases ht : emailTaken db e = true
      · simp [ht]
      · right
        refine ⟨n, e, ph, a, c, rfl, by simpa using ht, ?_⟩
        simp only [ht, if_false, Bool.false_eq_true]
        cases get_user_by_id fRead
            ⟨db.rows ++ [⟨db.nextId, n, e, ph, a, c⟩], db.nextId + 1⟩
            (Val.num db.nextId) <;> rfl

/-- An update leaves the store unchanged or rewrites the non-id fields
of the matching rows in place, keeping rowids and the counter. -/
theorem update_user_snd (fUpd fRead : Fault) (db : DB) (idv : Val) (p : Payload) :
    (update_user fUpd fRead db idv p).2 = db ∨
      ∃ n e ph a c,
        (update_user fUpd fRead db idv p).2 =
          ⟨db.rows.map (fun r =>
              if rowMatchesId idv r then ⟨r.user_id, n, e, ph, a, c⟩ else r),
           db.nextId⟩ := by
  cases fUpd with
  | storeErr => exact Or.inl rfl
  | ok =>
    unfold update_user
    by_cases hm : db.rows.any (fun r => rowMatchesId idv r) = true
    · simp only [hm, if_true]
      cases h : storeVals p with
      | none => exact Or.inl rfl
      | some v =>
        obtain ⟨n, e, ph, a, c⟩ := v
        by_cases hc : db.rows.any (fun r => !rowMatchesId idv r && r.email == e) = true
        · simp [hc]
        · right
          refine ⟨n, e, ph, a, c, ?_⟩
          simp only [hc, if_false, Bool.false_eq_true]
          cases get_user_by_id fRead
              ⟨db.rows.map (fun r =>
                  if rowMatchesId idv r then ⟨r.user_id, n, e, ph, a, c⟩ else r),
               db.nextId⟩ idv <;> rfl
    · simp [hm]

/-- A delete leaves the store unchanged or removes exactly the rows
matching the id, keeping the counter. -/
theorem delete_user_snd (f : Fault) (db : DB) (uid : Nat) :
    (delete_user f db uid).2 = db ∨
      (delete_user f db uid).2 =
        ⟨db.rows.filter (fun r => !(r.user_id == uid)), db.nextId⟩ := by
  cases f with
  | storeErr => exact Or.inl rfl
  | ok =>
    unfold delete_user
    by_cases h : db.rows.length - (db.rows.filter (fun r => !(r.user_id == uid))).length == 0
    · simp [h]
    · simp [h]

/-! ## Invariant preservation and counter monotonicity -/

theorem storeInv_append_new (db : DB) (h : StoreInv db)
    (n e ph a c : String) :
    StoreInv ⟨db.rows ++ [⟨db.nextId, n, e, ph, a, c⟩], db.nextId + 1⟩ := by
  obtain ⟨hp, hb⟩ := h
  constructor
  · rw [List.pairwise_append]
    refine ⟨hp, List.pairwise_singleton _ _, ?_⟩
    intro x hx y hy
    simp only [List.mem_singleton] at hy
    subst hy
    exact hb x hx
  · intro r hr
    rcases List.mem_append.mp hr with h1 | h1
    · exact Nat.lt_succ_of_lt (hb r h1)
    · simp only [List.mem_singleton] at h1
      subst h1
      exact Nat.lt_succ_self _

theorem storeInv_map_fields (db : DB) (h : StoreInv db) (g : UserRow → UserRow)
    (hg : ∀ r, (g r).user_id = r.user_id) :
    StoreInv ⟨db.rows.map g, db.nextId⟩ := by
  obtain ⟨hp, hb⟩ := h
  constructor
  · rw [List.pairwise_map]
    refine hp.imp ?_
    intro a b hab
    rw [hg, hg]
    exact hab
  · intro r hr
    rcases List.mem_map.mp hr with ⟨s, hs, rfl⟩
    rw [hg]
    exact hb s hs

theorem storeInv_filter (db : DB) (h : StoreInv db) (q : UserRow → Bool) :
    StoreInv ⟨db.rows.filter q, db.nextId⟩ := by
  obtain ⟨hp, hb⟩ := h
  constructor
  · exact hp.sublist (List.filter_sublist _)
  · intro r hr
    exact hb r (List.mem_of_mem_filter hr)

/-- Every service call preserves the store invariant. -/
theorem storeInv_applyOp (db : DB) (o : Op) (h : StoreInv db) :
    StoreInv (applyOp db o) := by
  cases o with
  | create fIns fRead p =>
    rcases insert_user_snd fIns fRead db p with h2 | ⟨n, e, ph, a, c, _, _, h2⟩ <;>
      simp only [applyOp, h2]
    · exact h
    · exact storeInv_append_new db h n e ph a c
  | update fUpd fRead idv p =>
    rcases update_user_snd fUpd fRead db idv p with h2 | ⟨n, e, ph, a, c, h2⟩ <;>
      simp only [applyOp, h2]
    · exact h
    · refine storeInv_map_fields db h _ ?_
      intro r
      by_cases hr : rowMatchesId idv r = true <;> simp [hr]
  | delete f uid =>
    rcases delete_user_snd f db uid with h2 | h2 <;> simp only [applyOp, h2]
    · exact h
    · exact storeInv_filter db h _
  | getOne f v => exact h
  | listAll f => exact h

/-- The AUTOINCREMENT counter never decreases across a call. -/
theorem nextId_le_applyOp (db : DB) (o : Op) : db.nextId ≤ (applyOp db o).nextId := by
  cases o with
  | create fIns fRead p =>
    rcases insert_user_snd fIns fRead db p with h2 | ⟨n, e, ph, a, c, _, _, h2⟩ <;>
      simp only [applyOp, h2]
    · exact Nat.le_refl _
    · exact Nat.le_succ _
  | update fUpd fRead idv p =>
    rcases update_user_snd fUpd fRead db idv p with h2 | ⟨n, e, ph, a, c, h2⟩ <;>
      simp only [applyOp, h2] <;> exact Nat.le_refl _
  | delete f uid =>
    rcases delete_user_snd f db uid with h2 | h2 <;> simp only [applyOp, h2] <;>
      exact Nat.le_refl _
  | getOne f v => exact Nat.le_refl _
  | listAll f => exact Nat.le_refl _

theorem storeInv_run (db : DB) (ops : List Op) (h : StoreInv db) :
    StoreInv (run db ops) := by
  induction ops generalizing db with
  | nil => exact h
  | cons o t ih => exact ih (applyOp db o) (storeInv_applyOp db o h)

theorem nextId_le_run (db : DB) (ops : List Op) :
    db.nextId ≤ (run db ops).nextId := by
  induction ops generalizing db with
  | nil => exact Nat.le_refl _
  | cons o t ih =>
    exact Nat.le_trans (nextId_le_applyOp db o) (ih (applyOp db o))

theorem run_append (db : DB) (xs ys : List Op) :
    run db (xs ++ ys) = run (run db xs) ys := by
  simp [run, List.foldl_append]

/-! ## Lookup helper lemmas -/

/-- `WHERE user_id = ?` with an integer finds nothing when no row has
that rowid. -/
theorem find?_rowMatches_none (l : List UserRow) (i : Int)
    (h : ∀ r ∈ l, (r.user_id : Int) ≠ i) :
    l.find? (fun r => rowMatchesId (Val.num i) r) = none := by
  rw [List.find?_eq_none]
  intro r hr
  simp only [rowMatchesId, beq_iff_eq]
  exact fun he => h r hr he.symm

/-- Looking up the freshly assigned rowid in the grown table finds
exactly the new row, because every pre-existing row has a smaller
rowid. -/
theorem find?_fresh_row (l : List UserRow) (x : UserRow) (k : Nat)
    (hk : ∀ r ∈ l, r.user_id ≠ k) (hx : x.user_id = k) :
    (l ++ [x]).find? (fun r => rowMatchesId (Val.num (k : Int)) r) = some x := by
  rw [List.find?_append]
  have h1 : l.find? (fun r => rowMatchesId (Val.num (k : Int)) r) = none := by
    apply find?_rowMatches_none
    intro r hr he
    exact hk r hr (Int.natCast_inj.mp he)
  rw [h1]
  have h2 : rowMatchesId (Val.num (k : Int)) x = true := by
    simp [rowMatchesId, hx]
  simp [List.find?, h2]

/-- A key that is present makes the parsed object non-empty, hence
truthy for the Python emptiness check. -/
theorem isEmpty_false_of_hasKey (o : Obj) (k : String) (h : hasKey o k = true) :
    o.isEmpty = false := by
  cases o with
  | nil => simp [hasKey] at h
  | cons kv t => rfl

/-- If some required field is absent, the `all`-presence check the
handler runs comes out false. -/
theorem all_hasKey_eq_false (l : List String) (o : Obj)
    (h : l.any (fun fld => !hasKey o fld) = true) :
    l.all (fun fld => hasKey o fld) = false := by
  rcases List.any_eq_true.mp h with ⟨fld, hmem, hf⟩
  rw [Bool.not_eq_true'] at hf
  cases hall : l.all (fun fld => hasKey o fld) with
  | false => rfl
  | true =>
    have := List.all_eq_true.mp hall fld hmem
    rw [hf] at this
    exact absurd this (by simp)

/-! ## Claim theorems -/

/-- C1: for every payload carrying the five required fields as strings
whose email is not already stored, `insert_user` succeeds and returns
the re-read canonical record, and `get_user_by_id` on the returned
rowid yields a record with exactly the submitted field values. -/
theorem create_then_get_roundtrip (db : DB) (hInv : StoreInv db)
    (n e ph a c : String) (hfresh : emailTaken db e = false) :
    ∃ u db',
      insert_user Fault.ok Fault.ok db
          ⟨Val.str n, Val.str e, Val.str ph, Val.str a, Val.str c⟩ =
        (InsertResult.user u, db') ∧
      u.name = n ∧ u.email = e ∧ u.phone = ph ∧ u.address = a ∧
      u.country = c ∧
      get_user_by_id Fault.ok db' (Val.num u.user_id) = some u := by
  obtain ⟨hp, hb⟩ := hInv
  have hfind : (db.rows ++ [(⟨db.nextId, n, e, ph, a, c⟩ : UserRow)]).find?
      (fun r => rowMatchesId (Val.num (db.nextId : Int)) r) =
      some ⟨db.nextId, n, e, ph, a, c⟩ :=
    find?_fresh_row db.rows _ db.nextId
      (fun r hr => Nat.ne_of_lt (hb r hr)) rfl
  refine ⟨⟨db.nextId, n, e, ph, a, c⟩,
    ⟨db.rows ++ [⟨db.nextId, n, e, ph, a, c⟩], db.nextId + 1⟩,
    ?_, rfl, rfl, rfl, rfl, rfl, ?_⟩
  · have hsv : storeVals ⟨Val.str n, Val.str e, Val.str ph, Val.str a,
        Val.str c⟩ = some (n, e, ph, a, c) := rfl
    unfold insert_user
    rw [hsv]
    simp only [hfresh, Bool.false_eq_true, if_false, get_user_by_id]
    rw [hfind]
  · simp only [get_user_by_id]
    exact hfind

/-- C1 witness: scenario 1, Alice created into the fresh store. -/
theorem create_then_get_roundtrip_witness :
    StoreInv initialDB ∧ emailTaken initialDB "a@x.com" = false ∧
    ∃ u db',
      insert_user Fault.ok Fault.ok initialDB
          ⟨Val.str "Alice", Val.str "a@x.com", Val.str "123",
           Val.str "1 Main St", Val.str "US"⟩ =
        (InsertResult.user u, db') ∧
      u.name = "Alice" ∧ u.email = "a@x.com" ∧ u.phone = "123" ∧
      u.address = "1 Main St" ∧ u.country = "US" ∧
      get_user_by_id Fault.ok db' (Val.num u.user_id) = some u :=
  ⟨by decide, by decide,
    create_then_get_roundtrip initialDB (by decide)
      "Alice" "a@x.com" "123" "1 Main St" "US" (by decide)⟩

/-- C3 counterexample: on the empty store, a request whose connection
fails does not produce the empty sequence with 200 — `with None` raises
and the framework answers 500, an error, refuting "never an error". -/
theorem list_error_on_connection_failure :
    api_get_users_req false Fault.ok initialDB =
      (500, RespBody.internalError) ∧
    api_get_users_req false Fault.ok initialDB ≠
      (200, RespBody.userList []) :=
  ⟨rfl, by decide⟩

/-- C3 amended: on every reachable store, with a usable connection the
list operation returns exactly the stored rows in strictly ascending
rowid order; on an empty store it returns the empty list even on a
storage error, and the endpoint answers 200 with the array; but a
failed connection raises out of the handler and the request is
answered 500. -/
theorem list_all_rows_ordered (ops : List Op) (f : Fault) (k : Nat) (db2 : DB) :
    get_users Fault.ok (run initialDB ops) = (run initialDB ops).rows ∧
    List.Pairwise (fun a b => a.user_id < b.user_id)
      (get_users Fault.ok (run initialDB ops)) ∧
    get_users f ⟨[], k⟩ = [] ∧
    api_get_users_req true f (run initialDB ops) =
      (200, RespBody.userList (get_users f (run initialDB ops))) ∧
    api_get_users_req false f db2 = (500, RespBody.internalError) := by
  refine ⟨rfl, ?_, ?_, rfl, rfl⟩
  · exact (storeInv_run initialDB ops storeInv_initial).1
  · cases f <;> rfl

/-- C8: when no row has the probed id, `get_user_by_id` reports the
empty dict and `delete_user` reports not-found, and neither call
changes any row of the store. -/
theorem get_delete_nonexistent_id (db : DB) (uid : Nat)
    (habs : ∀ r ∈ db.rows, r.user_id ≠ uid) :
    get_user_by_id Fault.ok db (Val.num uid) = none ∧
    delete_user Fault.ok db uid = (DeleteResult.notFound, db) ∧
    applyOp db (Op.getOne Fault.ok (Val.num uid)) = db ∧
    applyOp db (Op.delete Fault.ok uid) = db := by
  have hfilter : db.rows.filter (fun r => !(r.user_id == uid)) = db.rows := by
    rw [List.filter_eq_self]
    intro r hr
    simp [habs r hr]
  have hdel : delete_user Fault.ok db uid = (DeleteResult.notFound, db) := by
    unfold delete_user
    rw [hfilter]
    simp
  refine ⟨?_, hdel, rfl, ?_⟩
  · simp only [get_user_by_id]
    apply find?_rowMatches_none
    intro r hr he
    exact habs r hr (Int.natCast_inj.mp he)
  · simp only [applyOp, hdel]

/-- C8 witness: probing id 7 in the store holding only Alice. -/
theorem get_delete_nonexistent_id_witness :
    get_user_by_id Fault.ok dbAlice (Val.num 7) = none ∧
    delete_user Fault.ok dbAlice 7 = (DeleteResult.notFound, dbAlice) ∧
    applyOp dbAlice (Op.getOne Fault.ok (Val.num 7)) = dbAlice ∧
    applyOp dbAlice (Op.delete Fault.ok 7) = dbAlice :=
  get_delete_nonexistent_id dbAlice 7 (by decide)

/-- C9: a body parsing to the empty JSON object is falsy in Python, so
both write endpoints reject it as "No input data provided." before any
field-presence check, not as a missing-fields list. -/
theorem empty_object_rejected_as_no_input (db : DB) (fIns fRead fUpd fRead2 : Fault) :
    api_add_user (some []) fIns fRead db = ((400, RespBody.errNoInput), db) ∧
    api_update_user (some []) fUpd fRead2 db = ((400, RespBody.errNoInput), db) :=
  ⟨rfl, rfl⟩

/-- C2: a non-empty body missing required fields is rejected by both
write endpoints with 400 and the complete list of missing field names
in the order of the required list, and an absent body is rejected first
as "No input data provided.". -/
theorem missing_fields_listed_in_full (db : DB) (fIns fRead fUpd fRead2 : Fault)
    (o o2 : Obj) (ho : o ≠ []) (ho2 : o2 ≠ [])
    (hm : required_fields_add.any (fun fld => !hasKey o fld) = true)
    (hm2 : required_fields_update.any (fun fld => !hasKey o2 fld) = true) :
    api_add_user (some o) fIns fRead db =
      ((400, RespBody.errMissing
          (required_fields_add.filter (fun fld => !hasKey o fld))), db) ∧
    api_update_user (some o2) fUpd fRead2 db =
      ((400, RespBody.errMissing
          (required_fields_update.filter (fun fld => !hasKey o2 fld))), db) ∧
    api_add_user none fIns fRead db = ((400, RespBody.errNoInput), db) ∧
    api_update_user none fUpd fRead2 db = ((400, RespBody.errNoInput), db) := by
  have hoe : o.isEmpty = false := by
    cases o with
    | nil => exact absurd rfl ho
    | cons kv t => rfl
  have hoe2 : o2.isEmpty = false := by
    cases o2 with
    | nil => exact absurd rfl ho2
    | cons kv t => rfl
  refine ⟨?_, ?_, rfl, rfl⟩
  · unfold api_add_user
    simp only [bodyFalsy, hoe, Bool.false_eq_true, if_false, Option.getD,
      all_hasKey_eq_false required_fields_add o hm]
  · unfold api_update_user
    simp only [bodyFalsy, hoe2, Bool.false_eq_true, if_false, Option.getD,
      all_hasKey_eq_false required_fields_update o2 hm2]

/-- C2 witness: scenario 6 body carrying only a name, and the same body
sent to the update endpoint, where `user_id` is also reported. -/
theorem missing_fields_listed_in_full_witness :
    objOnlyName ≠ [] ∧
    required_fields_add.any (fun fld => !hasKey objOnlyName fld) = true ∧
    api_add_user (some objOnlyName) Fault.ok Fault.ok initialDB =
      ((400, RespBody.errMissing
          (required_fields_add.filter (fun fld => !hasKey objOnlyName fld))),
        initialDB) ∧
    api_update_user (some objOnlyName) Fault.ok Fault.ok initialDB =
      ((400, RespBody.errMissing
          (required_fields_update.filter (fun fld => !hasKey objOnlyName fld))),
        initialDB) ∧
    required_fields_add.filter (fun fld => !hasKey objOnlyName fld) =
      ["email", "phone", "address", "country"] ∧
    required_fields_update.filter (fun fld => !hasKey objOnlyName fld) =
      ["user_id", "email", "phone", "address", "country"] := by
  have h := missing_fields_listed_in_full initialDB Fault.ok Fault.ok Fault.ok
    Fault.ok objOnlyName objOnlyName (by decide) (by decide) (by decide) (by decide)
  exact ⟨by decide, by decide, h.1, h.2.1, by decide, by decide⟩

/-- C7: an update aimed at an id no row carries is answered 400 with
the "User not found." error body, while a GET by a nonexistent id is
answered 404 with the same error body. -/
theorem update_notfound_400_get_notfound_404 (db : DB) (o : Obj) (i : Int)
    (hkeys : required_fields_update.all (fun fld => hasKey o fld) = true)
    (hid : getVal o "user_id" = Val.num i)
    (habs : ∀ r ∈ db.rows, (r.user_id : Int) ≠ i)
    (fRead : Fault) (db2 : DB) (uid2 : Nat)
    (habs2 : ∀ r ∈ db2.rows, r.user_id ≠ uid2) :
    api_update_user (some o) Fault.ok fRead db =
      ((400, RespBody.errUserNotFound), db) ∧
    api_get_user Fault.ok db2 uid2 = (404, RespBody.errUserNotFound) := by
  constructor
  · have hoe : o.isEmpty = false :=
      isEmpty_false_of_hasKey o "user_id"
        (List.all_eq_true.mp hkeys "user_id" (by decide))
    have hany : db.rows.any (fun r => rowMatchesId (Val.num i) r) = false := by
      cases hx : db.rows.any (fun r => rowMatchesId (Val.num i) r) with
      | false => rfl
      | true =>
        rcases List.any_eq_true.mp hx with ⟨r, hr, hmatch⟩
        simp only [rowMatchesId, beq_iff_eq] at hmatch
        exact absurd hmatch.symm (habs r hr)
    unfold api_update_user
    simp only [bodyFalsy, hoe, Bool.false_eq_true, if_false, Option.getD,
      hkeys, if_true]
    unfold update_user
    rw [hid, hany]
    rfl
  · unfold api_get_user
    simp only [get_user_by_id]
    rw [find?_rowMatches_none db2.rows (uid2 : Int)
      (fun r hr he => habs2 r hr (Int.natCast_inj.mp he))]

/-- C7 witness: updating id 999 in the store holding only Alice, and
fetching id 999 from the same store. -/
theorem update_notfound_400_get_notfound_404_witness :
    api_update_user (some objUpdateMissing) Fault.ok Fault.ok dbAlice =
      ((400, RespBody.errUserNotFound), dbAlice) ∧
    api_get_user Fault.ok dbAlice 999 = (404, RespBody.errUserNotFound) :=
  update_notfound_400_get_notfound_404 dbAlice objUpdateMissing 999
    (by decide) (by decide) (by decide) Fault.ok dbAlice 999 (by decide)

/-- When all five bindings store successfully, the email component is
the stored form of the payload's email. -/
theorem storeVals_email (p : Payload) (n e ph a c : String)
    (h : storeVals p = some (n, e, ph, a, c)) : storeVal p.email = some e := by
  unfold storeVals at h
  cases hn : storeVal p.name <;> rw [hn] at h
  · simp at h
  · cases hem : storeVal p.email <;> rw [hem] at h
    · simp at h
    · cases hph : storeVal p.phone <;> rw [hph] at h
      · simp at h
      · cases ha : storeVal p.address <;> rw [ha] at h
        · simp at h
        · cases hc : storeVal p.country <;> rw [hc] at h
          · simp at h
          · simp at h
            rw [h.2.1]

/-- A successful insert hands back a row carrying the AUTOINCREMENT
value the store held before the call. -/
theorem insert_user_assigns_nextId (fIns fRead : Fault) (db : DB) (p : Payload)
    (u : UserRow) (db' : DB)
    (h : insert_user fIns fRead db p = (InsertResult.user u, db')) :
    u.user_id = db.nextId := by
  cases fIns with
  | storeErr => unfold insert_user at h; simp at h
  | ok =>
    unfold insert_user at h
    cases hsv : storeVals p with
    | none => rw [hsv] at h; simp at h
    | some v =>
      obtain ⟨n, e, ph, a, c⟩ := v
      rw [hsv] at h
      by_cases ht : emailTaken db e = true
      · simp [ht] at h
      · cases fRead with
        | storeErr => simp [ht, get_user_by_id] at h
        | ok =>
          simp only [ht, Bool.false_eq_true, if_false, get_user_by_id] at h
          split at h
          next w hw =>
            have hw2 := List.find?_some hw
            simp only [rowMatchesId, beq_iff_eq] at hw2
            simp only [Prod.mk.injEq, InsertResult.user.injEq] at h
            rw [← h.1]
            exact (Int.natCast_inj.mp hw2).symm
          next hw => simp at h

/-- C4: when some stored row already holds the submitted email, the
create endpoint answers 400 with the "Email must be unique." body and
hands back the store unchanged: same row count, every row intact. -/
theorem duplicate_email_create_rejected (db : DB) (o : Obj) (e : String)
    (r : UserRow) (hr : r ∈ db.rows) (he : r.email = e)
    (hkeys : required_fields_add.all (fun fld => hasKey o fld) = true)
    (hemail : getVal o "email" = Val.str e) (fRead : Fault) :
    api_add_user (some o) Fault.ok fRead db =
      ((400, RespBody.errEmailUnique), db) := by
  have hoe : o.isEmpty = false :=
    isEmpty_false_of_hasKey o "name" (List.all_eq_true.mp hkeys "name" (by decide))
  have htaken : emailTaken db e = true :=
    List.any_eq_true.mpr ⟨r, hr, by simp [he]⟩
  have hres : insert_user Fault.ok fRead db (payloadOfObj o) =
      (InsertResult.errEmailUnique, db) := by
    unfold insert_user
    cases hsv : storeVals (payloadOfObj o) with
    | none => rfl
    | some v =>
      obtain ⟨n, e', ph, a, c⟩ := v
      have hse : storeVal (payloadOfObj o).email = some e' :=
        storeVals_email _ n e' ph a c hsv
      have hpe : (payloadOfObj o).email = Val.str e := hemail
      rw [hpe] at hse
      have hse2 : (some e : Option String) = some e' := hse
      have hee : e' = e := (Option.some.inj hse2).symm
      subst hee
      simp [htaken]
  unfold api_add_user
  simp only [bodyFalsy, hoe, Bool.false_eq_true, if_false, Option.getD,
    hkeys, if_true]
  rw [hres]
  rfl

/-- C4 witness: scenario 2, Bob submitted with Alice's email. -/
theorem duplicate_email_create_rejected_witness :
    rowAlice ∈ dbAlice.rows ∧
    api_add_user (some objBobDupEmail) Fault.ok Fault.ok dbAlice =
      ((400, RespBody.errEmailUnique), dbAlice) :=
  ⟨by decide,
    duplicate_email_create_rejected dbAlice objBobDupEmail "a@x.com" rowAlice
      (by decide) (by decide) (by decide) (by decide) Fault.ok⟩

/-- C5 counterexample: on the empty store nothing holds the email, so
the uniqueness constraint cannot be violated; still the insert of a
payload whose name is null (a NOT NULL violation, an IntegrityError
that is not an email-uniqueness violation) is reported as "Email must
be unique.", and the endpoint surfaces it as such. -/
theorem email_unique_error_without_duplicate :
    emailTaken initialDB "b@x.com" = false ∧
    insert_user Fault.ok Fault.ok initialDB pNullName =
      (InsertResult.errEmailUnique, initialDB) ∧
    api_add_user (some objNullName) Fault.ok Fault.ok initialDB =
      ((400, RespBody.errEmailUnique), initialDB) := by
  refine ⟨rfl, rfl, ?_⟩
  decide

/-- C5 amended: the "Email must be unique." outcome occurs exactly on
an integrity-constraint violation, that is, when some bound value is
null or the submitted email is already stored; every other store error
is reported as "Failed to insert user.". -/
theorem insert_error_classification (db : DB) (p : Payload) (fRead : Fault) :
    ((insert_user Fault.ok fRead db p).1 = InsertResult.errEmailUnique ↔
      storeVals p = none ∨
        ∃ e, storeVal p.email = some e ∧ emailTaken db e = true) ∧
    (insert_user Fault.storeErr fRead db p).1 = InsertResult.errInsertFailed := by
  refine ⟨?_, rfl⟩
  cases hsv : storeVals p with
  | none =>
    have h1 : (insert_user Fault.ok fRead db p).1 = InsertResult.errEmailUnique := by
      unfold insert_user
      rw [hsv]
    exact iff_of_true h1 (Or.inl rfl)
  | some v =>
    obtain ⟨n, e, ph, a, c⟩ := v
    have hse : storeVal p.email = some e := storeVals_email p n e ph a c hsv
    by_cases ht : emailTaken db e = true
    · have h1 : (insert_user Fault.ok fRead db p).1 = InsertResult.errEmailUnique := by
        unfold insert_user
        rw [hsv]
        simp [ht]
      exact iff_of_true h1 (Or.inr ⟨e, hse, ht⟩)
    · have hcases : (∃ u, (insert_user Fault.ok fRead db p).1 = InsertResult.user u) ∨
          (insert_user Fault.ok fRead db p).1 = InsertResult.emptyDict := by
        unfold insert_user
        rw [hsv]
        simp only [ht, Bool.false_eq_true, if_false]
        split
        next u hu => exact Or.inl ⟨u, rfl⟩
        next hu => exact Or.inr rfl
      refine iff_of_false ?_ ?_
      · intro hL
        rcases hcases with ⟨u, hu⟩ | hu
        · rw [hL] at hu
          exact InsertResult.noConfusion hu
        · rw [hL] at hu
          exact InsertResult.noConfusion hu
      · intro hR
        rcases hR with hnone | ⟨e', hse', ht'⟩
        · exact Option.noConfusion hnone
        · rw [hse] at hse'
          exact ht ((Option.some.inj hse') ▸ ht')

/-- C6: every reachable store keeps rowids strictly increasing along
the table (so each id is on at most one row), and a create that
succeeds later — even after arbitrary further operations, deletions
included — hands out an id strictly greater than that of any row ever
present before: ids grow monotonically and are never reused. -/
theorem user_ids_monotone_never_reused (ops extra : List Op) (r : UserRow)
    (hmem : r ∈ (run initialDB ops).rows)
    (fIns fRead : Fault) (p : Payload) (u : UserRow) (db' : DB)
    (hins : insert_user fIns fRead (run initialDB (ops ++ extra)) p =
      (InsertResult.user u, db')) :
    List.Pairwise (fun a b => a.user_id < b.user_id) (run initialDB ops).rows ∧
    r.user_id < u.user_id := by
  have hInv := storeInv_run initialDB ops storeInv_initial
  refine ⟨hInv.1, ?_⟩
  have h1 : r.user_id < (run initialDB ops).nextId := hInv.2 r hmem
  have h2 : (run initialDB ops).nextId ≤ (run initialDB (ops ++ extra)).nextId := by
    rw [run_append]
    exact nextId_le_run _ extra
  have h3 := insert_user_assigns_nextId fIns fRead _ p u db' hins
  omega

/-- C6 witness: Alice gets id 1; after her row is deleted, creating Bob
assigns id 2, not a reuse of 1. -/
theorem user_ids_monotone_never_reused_witness :
    List.Pairwise (fun a b => a.user_id < b.user_id)
      (run initialDB opsCreateAlice).rows ∧
    rowAlice.user_id < rowBob.user_id :=
  user_ids_monotone_never_reused opsCreateAlice opsDeleteAlice rowAlice
    (by decide) Fault.ok Fault.ok pBob rowBob dbBob (by decide)

/-- C10 counterexample: a failed connection while fetching Alice's
existing row is answered 500 by the framework (the `with None`
TypeError escapes the handler), while fetching the absent id 999 over
a working connection is answered 404 — the two responses differ, so a
failed connection is distinguishable from an absent id. -/
theorem connection_failure_distinguishable_from_not_found :
    api_get_user_req false Fault.ok dbAlice 1 =
      (500, RespBody.internalError) ∧
    api_get_user_req true Fault.ok dbAlice 999 =
      (404, RespBody.errUserNotFound) ∧
    api_get_user_req false Fault.ok dbAlice 1 ≠
      api_get_user_req true Fault.ok dbAlice 999 :=
  ⟨rfl, by decide, by decide⟩

/-- C10 amended: a storage error makes `get_user_by_id` return the
same empty dict as a genuinely absent id, so the GET endpoint answers
404 "User not found." identically in the two situations — those are
indistinguishable to the caller; a failed connection instead raises
out of the handler and the request is answered 500. -/
theorem storage_error_reads_as_not_found (db : DB) (uid : Nat)
    (db2 : DB) (uid2 : Nat)
    (habs : ∀ r ∈ db2.rows, r.user_id ≠ uid2)
    (db3 : DB) (uid3 : Nat) (f : Fault) :
    get_user_by_id Fault.storeErr db (Val.num uid) = none ∧
    api_get_user Fault.storeErr db uid = (404, RespBody.errUserNotFound) ∧
    get_user_by_id Fault.ok db2 (Val.num uid2) = none ∧
    api_get_user Fault.ok db2 uid2 = (404, RespBody.errUserNotFound) ∧
    api_get_user Fault.storeErr db uid = api_get_user Fault.ok db2 uid2 ∧
    api_get_user_req false f db3 uid3 = (500, RespBody.internalError) := by
  have hget2 : get_user_by_id Fault.ok db2 (Val.num uid2) = none := by
    simp only [get_user_by_id]
    exact find?_rowMatches_none db2.rows uid2
      (fun r hr he => habs r hr (Int.natCast_inj.mp he))
  have hapi2 : api_get_user Fault.ok db2 uid2 = (404, RespBody.errUserNotFound) := by
    unfold api_get_user
    rw [hget2]
  exact ⟨rfl, rfl, hget2, hapi2, by rw [hapi2]; rfl, rfl⟩

/-- C10 witness: a storage error while fetching Alice's existing row
answers exactly like fetching the absent id 999. -/
theorem storage_error_reads_as_not_found_witness :
    get_user_by_id Fault.storeErr dbAlice (Val.num 1) = none ∧
    api_get_user Fault.storeErr dbAlice 1 = (404, RespBody.errUserNotFound) ∧
    get_user_by_id Fault.ok dbAlice (Val.num 999) = none ∧
    api_get_user Fault.ok dbAlice 999 = (404, RespBody.errUserNotFound) ∧
    api_get_user Fault.storeErr dbAlice 1 = api_get_user Fault.ok dbAlice 999 ∧
    api_get_user_req false Fault.ok dbAlice 1 = (500, RespBody.internalError) :=
  storage_error_reads_as_not_found dbAlice 1 dbAlice 999 (by decide)
    dbAlice 1 Fault.ok
